import Mathlib

/-!
Shallow embedding of the fnirsi oscilloscope capture decoder
(src/src/main.rs).  The program's `f32` arithmetic is modelled with exact
rationals (`ℚ`); machine integers (`u16`, `u32`) are modelled as `ℕ` with
explicit `% 2^w` where wraparound could occur.  Fallible conversions
(`TryFrom`/`TryFromPrimitive`) are modelled with `Except`, the `unwrap`-based
parsed pipeline of `main` with `Option`, and the `binread`-driven binary
decode with an explicit byte-list cursor.
-/

namespace Fnirsi

/-- Unit marker for volts, mirroring `struct Volt` in main.rs. -/
inductive Volt
  | mk
deriving DecidableEq, Repr

/-- Unit marker for seconds, mirroring `struct Second` in main.rs. -/
inductive Second
  | mk
deriving DecidableEq, Repr

/-- Mirrors `struct Scale<T: Unit> { value: f32, scale: i32, unit: T }`;
the `f32` mantissa is modelled as an exact rational. -/
structure Scale (T : Type) where
  value : ℚ
  scale : ℤ
  unit : T
deriving DecidableEq, Repr

/-- Mirrors `Scale::get_scale`: `self.value * 10_f32.powi(self.scale)`. -/
def Scale.get_scale {T : Type} (s : Scale T) : ℚ :=
  s.value * (10 : ℚ) ^ s.scale

/-- Mirrors `const DIVISION_POINTS: f32 = 50.0`. -/
def DIVISION_POINTS : ℚ := 50

/-- Mirrors `const VOLTAGE_MEASUREMENT_DIVISOR: f32 = 1024f32`. -/
def VOLTAGE_MEASUREMENT_DIVISOR : ℚ := 1024

/-- Mirrors the `TIME_SCALES` static table in main.rs, entry for entry. -/
def TIME_SCALES : List (Scale Second) := [
  ⟨50, 0, Second.mk⟩,
  ⟨20, 0, Second.mk⟩,
  ⟨10, 0, Second.mk⟩,
  ⟨5, 0, Second.mk⟩,
  ⟨2, 0, Second.mk⟩,
  ⟨1, 0, Second.mk⟩,
  ⟨500, -3, Second.mk⟩,
  ⟨200, -3, Second.mk⟩,
  ⟨100, -3, Second.mk⟩,
  ⟨50, -3, Second.mk⟩,
  ⟨20, -3, Second.mk⟩,
  ⟨10, -3, Second.mk⟩,
  ⟨5, -3, Second.mk⟩,
  ⟨2, -3, Second.mk⟩,
  ⟨1, -3, Second.mk⟩,
  ⟨500, -6, Second.mk⟩,
  ⟨200, -6, Second.mk⟩,
  ⟨100, -6, Second.mk⟩,
  ⟨50, -6, Second.mk⟩,
  ⟨20, -6, Second.mk⟩,
  ⟨10, -6, Second.mk⟩,
  ⟨5, -6, Second.mk⟩,
  ⟨2, -6, Second.mk⟩,
  ⟨1, -6, Second.mk⟩,
  ⟨500, -9, Second.mk⟩,
  ⟨200, -9, Second.mk⟩,
  ⟨100, -9, Second.mk⟩,
  ⟨50, -9, Second.mk⟩,
  ⟨20, -9, Second.mk⟩,
  ⟨10, -9, Second.mk⟩,
  ⟨5, -9, Second.mk⟩,
  ⟨2, -9, Second.mk⟩,
  ⟨1, -9, Second.mk⟩]

/-- Mirrors the `PROBE_SCALES` static table in main.rs, entry for entry
(`2.5` is the rational `5/2`). -/
def PROBE_SCALES : List (Scale Volt) := [
  ⟨5, 0, Volt.mk⟩,
  ⟨5/2, 0, Volt.mk⟩,
  ⟨1, 0, Volt.mk⟩,
  ⟨500, -3, Volt.mk⟩,
  ⟨200, -3, Volt.mk⟩,
  ⟨100, -3, Volt.mk⟩,
  ⟨50, -3, Volt.mk⟩]

/-- Mirrors `struct Point { time: f32, voltage: f32 }`. -/
structure Point where
  time : ℚ
  voltage : ℚ
deriving DecidableEq, Repr

/-- Mirrors `generate_points`: enumerate the sample buffer and map each
`(index, voltage)` pair to a `Point`.  Samples and the zero offset are `u16`
values, cast to float (here: to `ℚ`) before subtraction. -/
def generate_points (values : List ℕ) (voltage_scale : Scale Volt)
    (time_scale : Scale Second) (offset : ℕ) : List Point :=
  values.enum.map (fun iv =>
    { time := (iv.1 : ℚ) * time_scale.get_scale / DIVISION_POINTS,
      voltage := ((iv.2 : ℚ) - (offset : ℚ)) * voltage_scale.get_scale / DIVISION_POINTS })

/-- Mirrors `process_voltage_measurement`: divide the raw `u16` code by 1024. -/
def process_voltage_measurement (measurement : ℕ) : ℚ :=
  (measurement : ℚ) / VOLTAGE_MEASUREMENT_DIVISOR

/-- Mirrors `parse_frequency(high: u16, low: u16) -> u32`:
`((high as u32) << 16) + low as u32`, with the `u32` addition taken
modulo `2^32` as machine arithmetic would. -/
def parse_frequency (high low : ℕ) : ℕ :=
  ((high <<< 16) % 4294967296 + low) % 4294967296

/-- Mirrors `num_enum::TryFromPrimitiveError`, which carries the rejected
raw number (the same shape serves the hand-written `Scale` impls). -/
structure TryFromPrimitiveError where
  number : ℕ
deriving DecidableEq, Repr

/-- Mirrors `TryFromPrimitive for Scale<Volt>`:
`PROBE_SCALES.get(number).ok_or(TryFromPrimitiveError { number })`. -/
def try_from_primitive_volt (number : ℕ) : Except TryFromPrimitiveError (Scale Volt) :=
  match PROBE_SCALES[number]? with
  | some s => .ok s
  | none => .error ⟨number⟩

/-- Mirrors `TryFromPrimitive for Scale<Second>`:
`TIME_SCALES.get(number).ok_or(TryFromPrimitiveError { number })`. -/
def try_from_primitive_second (number : ℕ) : Except TryFromPrimitiveError (Scale Second) :=
  match TIME_SCALES[number]? with
  | some s => .ok s
  | none => .error ⟨number⟩

/-- Mirrors `enum Coupling { DC = 0, AC }`. -/
inductive Coupling
  | DC
  | AC
deriving DecidableEq, Repr

/-- Mirrors `enum Attenuation { OneX = 0, TenX, OneHundredX }`. -/
inductive Attenuation
  | OneX
  | TenX
  | OneHundredX
deriving DecidableEq, Repr

/-- Mirrors `enum ScrollSpeed { Fast = 0, Slow }`. -/
inductive ScrollSpeed
  | Fast
  | Slow
deriving DecidableEq, Repr

/-- Mirrors `enum TriggerType { Auto = 0, Single, Normal }`. -/
inductive TriggerType
  | Auto
  | Single
  | Normal
deriving DecidableEq, Repr

/-- Mirrors `enum TriggerEdge { Rising = 0, Falling }`. -/
inductive TriggerEdge
  | Rising
  | Falling
deriving DecidableEq, Repr

/-- Mirrors `enum TriggerChannel { Channel1 = 0, Channel2 }`. -/
inductive TriggerChannel
  | Channel1
  | Channel2
deriving DecidableEq, Repr

/-- Mirrors `enum Trigger50 { On = 0, Off }`. -/
inductive Trigger50
  | On
  | Off
deriving DecidableEq, Repr

/-- Derived `TryFromPrimitive` for `Coupling` (contiguous codes from 0 in
declaration order, as `num_enum` generates for the `repr(u16)` enum). -/
def Coupling.try_from_primitive (n : ℕ) : Except TryFromPrimitiveError Coupling :=
  match n with
  | 0 => .ok .DC
  | 1 => .ok .AC
  | _ => .error ⟨n⟩

/-- Derived `TryFromPrimitive` for `Attenuation`. -/
def Attenuation.try_from_primitive (n : ℕ) : Except TryFromPrimitiveError Attenuation :=
  match n with
  | 0 => .ok .OneX
  | 1 => .ok .TenX
  | 2 => .ok .OneHundredX
  | _ => .error ⟨n⟩

/-- Derived `TryFromPrimitive` for `ScrollSpeed`. -/
def ScrollSpeed.try_from_primitive (n : ℕ) : Except TryFromPrimitiveError ScrollSpeed :=
  match n with
  | 0 => .ok .Fast
  | 1 => .ok .Slow
  | _ => .error ⟨n⟩

/-- Derived `TryFromPrimitive` for `TriggerType`. -/
def TriggerType.try_from_primitive (n : ℕ) : Except TryFromPrimitiveError TriggerType :=
  match n with
  | 0 => .ok .Auto
  | 1 => .ok .Single
  | 2 => .ok .Normal
  | _ => .error ⟨n⟩

/-- Derived `TryFromPrimitive` for `TriggerEdge`. -/
def TriggerEdge.try_from_primitive (n : ℕ) : Except TryFromPrimitiveError TriggerEdge :=
  match n with
  | 0 => .ok .Rising
  | 1 => .ok .Falling
  | _ => .error ⟨n⟩

/-- Derived `TryFromPrimitive` for `TriggerChannel`. -/
def TriggerChannel.try_from_primitive (n : ℕ) : Except TryFromPrimitiveError TriggerChannel :=
  match n with
  | 0 => .ok .Channel1
  | 1 => .ok .Channel2
  | _ => .error ⟨n⟩

/-- Derived `TryFromPrimitive` for `Trigger50`. -/
def Trigger50.try_from_primitive (n : ℕ) : Except TryFromPrimitiveError Trigger50 :=
  match n with
  | 0 => .ok .On
  | 1 => .ok .Off
  | _ => .error ⟨n⟩

/-- Mirrors `struct Measurements` (all fields raw `u16` codes). -/
structure Measurements where
  vmax : ℕ
  vmin : ℕ
  vavg : ℕ
  vrms : ℕ
  vpp : ℕ
  vp : ℕ
  frequency_high : ℕ
  frequency_low : ℕ
  cycle_ns : ℕ
  time_plus_ns : ℕ
  time_minus_ns : ℕ
  duty_plus_percentage : ℕ
  duty_minus_percentage : ℕ
deriving DecidableEq, Repr

/-- Mirrors `struct Header` (raw `u16` fields; the `pad_before` and
`seek_before` layout attributes live in the decoder, not the record). -/
structure Header where
  channel1_scale : ℕ
  channel1_coupling : ℕ
  channel1_probe : ℕ
  channel2_scale : ℕ
  channel2_coupling : ℕ
  channel2_probe : ℕ
  time_scale : ℕ
  scroll_speed : ℕ
  trigger_type : ℕ
  trigger_edge : ℕ
  trigger_channel : ℕ
  channel1_offset : ℕ
  channel2_offset : ℕ
  screen_brightness : ℕ
  grid_brightness : ℕ
  trigger_50 : ℕ
  channel1_measurements : Measurements
  channel2_measurements : Measurements
deriving DecidableEq, Repr

/-- Mirrors `struct File`: header plus the four raw sample buffers. -/
structure File where
  header : Header
  channel11 : List ℕ
  channel21 : List ℕ
  channel12 : List ℕ
  channel22 : List ℕ
deriving DecidableEq, Repr

/-- Mirrors `struct ProcessedMeasurements` (amplitudes in volts as `ℚ`,
the rest passed through as raw integers). -/
structure ProcessedMeasurements where
  vmax : ℚ
  vmin : ℚ
  vavg : ℚ
  vrms : ℚ
  vpp : ℚ
  vp : ℚ
  frequency : ℕ
  cycle_ns : ℕ
  time_plus_ns : ℕ
  time_minus_ns : ℕ
  duty_plus_percentage : ℕ
  duty_minus_percentage : ℕ
deriving DecidableEq, Repr

/-- Mirrors `struct Trigger`. -/
structure Trigger where
  trigger_type : TriggerType
  edge : TriggerEdge
  channel : TriggerChannel
  trigger_50 : Trigger50
deriving DecidableEq, Repr

/-- Mirrors `struct Channel`. -/
structure Channel where
  scale : Scale Volt
  coupling : Coupling
  attenuation : Attenuation
  measurements : ProcessedMeasurements
  points : List Point
deriving DecidableEq, Repr

/-- Mirrors `struct Data`. -/
structure Data where
  trigger : Trigger
  time_scale : Scale Second
  channel1 : Channel
  channel2 : Channel
deriving DecidableEq, Repr

/-- The `ProcessedMeasurements { ... }` construction that `main` performs
field by field for each channel's raw `Measurements` block. -/
def processed_measurements_of (m : Measurements) : ProcessedMeasurements :=
  { vmax := process_voltage_measurement m.vmax,
    vmin := process_voltage_measurement m.vmin,
    vavg := process_voltage_measurement m.vavg,
    vrms := process_voltage_measurement m.vrms,
    vpp := process_voltage_measurement m.vpp,
    vp := process_voltage_measurement m.vp,
    frequency := parse_frequency m.frequency_high m.frequency_low,
    cycle_ns := m.cycle_ns,
    time_plus_ns := m.time_plus_ns,
    time_minus_ns := m.time_minus_ns,
    duty_plus_percentage := m.duty_plus_percentage,
    duty_minus_percentage := m.duty_minus_percentage }

/-- Mirrors the `Output::Parsed` branch of `main`: each `try_into().unwrap()`
becomes an `Option` bind (a failing conversion aborts the whole parse).
Note both `generate_points` calls read `file.channel11`, exactly as in the
source. -/
def parsed_data (file : File) : Option Data := do
  let time_scale ← (try_from_primitive_second file.header.time_scale).toOption
  let chanel1_scale ← (try_from_primitive_volt file.header.channel1_scale).toOption
  let channel2_scale ← (try_from_primitive_volt file.header.channel2_scale).toOption
  let channel1_points := generate_points file.channel11 chanel1_scale time_scale file.header.channel1_offset
  let channel2_points := generate_points file.channel11 channel2_scale time_scale file.header.channel2_offset
  let trigger_type ← (TriggerType.try_from_primitive file.header.trigger_type).toOption
  let trigger_edge ← (TriggerEdge.try_from_primitive file.header.trigger_edge).toOption
  let trigger_channel ← (TriggerChannel.try_from_primitive file.header.trigger_channel).toOption
  let trigger_50 ← (Trigger50.try_from_primitive file.header.trigger_50).toOption
  let channel1_coupling ← (Coupling.try_from_primitive file.header.channel1_coupling).toOption
  let channel1_probe ← (Attenuation.try_from_primitive file.header.channel1_probe).toOption
  let channel2_coupling ← (Coupling.try_from_primitive file.header.channel2_coupling).toOption
  let channel2_probe ← (Attenuation.try_from_primitive file.header.channel2_probe).toOption
  pure
    { trigger :=
        { trigger_type := trigger_type,
          edge := trigger_edge,
          channel := trigger_channel,
          trigger_50 := trigger_50 },
      time_scale := time_scale,
      channel1 :=
        { scale := chanel1_scale,
          coupling := channel1_coupling,
          attenuation := channel1_probe,
          measurements := processed_measurements_of file.header.channel1_measurements,
          points := channel1_points },
      channel2 :=
        { scale := channel2_scale,
          coupling := channel2_coupling,
          attenuation := channel2_probe,
          measurements := processed_measurements_of file.header.channel2_measurements,
          points := channel2_points } }

/-- Little-endian `u16` read at byte position `pos` of the buffer, as the
`binread` cursor performs it for every header and sample field. -/
def readU16le (buf : List ℕ) (pos : ℕ) : Option ℕ := do
  let b0 ← buf[pos]?
  let b1 ← buf[pos + 1]?
  pure (b0 + 256 * b1)

/-- Reads the six padded amplitude fields of a `Measurements` block
(`pad_before = 2` each, so they sit at `pos + 2, 6, 10, 14, 18, 22`). -/
def decodeAmplitudes (buf : List ℕ) (pos : ℕ) : Option (ℕ × ℕ × ℕ × ℕ × ℕ × ℕ) := do
  let vmax ← readU16le buf (pos + 2)
  let vmin ← readU16le buf (pos + 6)
  let vavg ← readU16le buf (pos + 10)
  let vrms ← readU16le buf (pos + 14)
  let vpp ← readU16le buf (pos + 18)
  let vp ← readU16le buf (pos + 22)
  pure (vmax, vmin, vavg, vrms, vpp, vp)

/-- Reads the two unpadded frequency halves (`pos + 24, 26`) and the first
three padded duration fields (`pos + 30, 34, 38`) of a `Measurements`
block. -/
def decodeFrequencyCycle (buf : List ℕ) (pos : ℕ) : Option (ℕ × ℕ × ℕ × ℕ × ℕ) := do
  let frequency_high ← readU16le buf (pos + 24)
  let frequency_low ← readU16le buf (pos + 26)
  let cycle_ns ← readU16le buf (pos + 30)
  let time_plus_ns ← readU16le buf (pos + 34)
  let time_minus_ns ← readU16le buf (pos + 38)
  pure (frequency_high, frequency_low, cycle_ns, time_plus_ns, time_minus_ns)

/-- Reads the two padded duty fields (`pos + 42, 46`) of a `Measurements`
block. -/
def decodeDuty (buf : List ℕ) (pos : ℕ) : Option (ℕ × ℕ) := do
  let duty_plus_percentage ← readU16le buf (pos + 42)
  let duty_minus_percentage ← readU16le buf (pos + 46)
  pure (duty_plus_percentage, duty_minus_percentage)

/-- Cursor decode of one `Measurements` block starting at byte `pos`.
Each amplitude and duration field carries `pad_before = 2`, the two
frequency halves none; the block is 48 bytes, so the cursor ends at
`pos + 48`. -/
def decodeMeasurements (buf : List ℕ) (pos : ℕ) : Option (Measurements × ℕ) := do
  let a ← decodeAmplitudes buf pos
  let f ← decodeFrequencyCycle buf pos
  let d ← decodeDuty buf pos
  pure (⟨a.1, a.2.1, a.2.2.1, a.2.2.2.1, a.2.2.2.2.1, a.2.2.2.2.2,
    f.1, f.2.1, f.2.2.1, f.2.2.2.1, f.2.2.2.2, d.1, d.2⟩, pos + 48)

/-- Reads the six channel-configuration fields of the header.  Their byte
positions follow from the declared `pad_before` gaps: 4 before
`channel1_scale`, 2 before `channel1_coupling`, `channel2_scale` and
`channel2_coupling`, none elsewhere. -/
def decodeChannelConfig (buf : List ℕ) : Option (ℕ × ℕ × ℕ × ℕ × ℕ × ℕ) := do
  let channel1_scale ← readU16le buf 4
  let channel1_coupling ← readU16le buf 8
  let channel1_probe ← readU16le buf 10
  let channel2_scale ← readU16le buf 14
  let channel2_coupling ← readU16le buf 18
  let channel2_probe ← readU16le buf 20
  pure (channel1_scale, channel1_coupling, channel1_probe, channel2_scale,
    channel2_coupling, channel2_probe)

/-- Reads the time-base and trigger configuration fields of the header
(contiguous at bytes 22 to 31). -/
def decodeTriggerConfig (buf : List ℕ) : Option (ℕ × ℕ × ℕ × ℕ × ℕ) := do
  let time_scale ← readU16le buf 22
  let scroll_speed ← readU16le buf 24
  let trigger_type ← readU16le buf 26
  let trigger_edge ← readU16le buf 28
  let trigger_channel ← readU16le buf 30
  pure (time_scale, scroll_speed, trigger_type, trigger_edge, trigger_channel)

/-- Reads the offset and display fields of the header: `pad_before = 52`
puts `channel1_offset` at byte 84, `pad_before = 32` puts
`screen_brightness` at byte 120. -/
def decodeOffsetsDisplay (buf : List ℕ) : Option (ℕ × ℕ × ℕ × ℕ × ℕ) := do
  let channel1_offset ← readU16le buf 84
  let channel2_offset ← readU16le buf 86
  let screen_brightness ← readU16le buf 120
  let grid_brightness ← readU16le buf 122
  let trigger_50 ← readU16le buf 124
  pure (channel1_offset, channel2_offset, screen_brightness, grid_brightness,
    trigger_50)

/-- Cursor decode of `Header` from the start of the buffer: the padded
forward fields, then the two absolute `seek_before = Start(208)` /
`Start(256)` jumps for the per-channel measurement blocks. -/
def decodeHeader (buf : List ℕ) : Option Header := do
  let c ← decodeChannelConfig buf
  let t ← decodeTriggerConfig buf
  let o ← decodeOffsetsDisplay buf
  let m1 ← decodeMeasurements buf 208
  let m2 ← decodeMeasurements buf 256
  pure ⟨c.1, c.2.1, c.2.2.1, c.2.2.2.1, c.2.2.2.2.1, c.2.2.2.2.2,
    t.1, t.2.1, t.2.2.1, t.2.2.2.1, t.2.2.2.2,
    o.1, o.2.1, o.2.2.1, o.2.2.2.1, o.2.2.2.2, m1.1, m2.1⟩

/-- Reads `count` little-endian `u16` values from the front of the
remaining byte list (the cursor after a seek), returning the values and
the rest of the buffer. -/
def readRun : List ℕ → ℕ → Option (List ℕ × List ℕ)
  | rest, 0 => some ([], rest)
  | b0 :: b1 :: rest, n + 1 =>
    (readRun rest n).map (fun p => ((b0 + 256 * b1) :: p.1, p.2))
  | _, _ => none

/-- Cursor decode of `File`: header first, then one absolute
`seek_before = Start(1000)` to the sample area, then the four sample runs
of 1500, 1500, 750 and 750 `u16` values read back to back. -/
def decodeFile (buf : List ℕ) : Option File := do
  let header ← decodeHeader buf
  let r0 := buf.drop 1000
  let c11 ← readRun r0 1500
  let c21 ← readRun c11.2 1500
  let c12 ← readRun c21.2 750
  let c22 ← readRun c12.2 750
  pure ⟨header, c11.1, c21.1, c12.1, c22.1⟩

/-- Modelled from the spec: the documented closed form of the
time-per-division table, a 1/2/5 progression across decades starting at
50 s (entry `i` is 5, 2 or 1 according to `i % 3`, times
`10 ^ (1 - i / 3)`). -/
def timeCoefficient (i : ℕ) : ℚ :=
  (if i % 3 = 0 then 5 else if i % 3 = 1 then 2 else 1) *
    (10 : ℚ) ^ ((1 : ℤ) - (i / 3 : ℕ))

/-- Modelled from the spec: the documented voltage-per-division
coefficients, spanning 5 V down to 50 mV. -/
def voltageCoefficient (i : ℕ) : ℚ :=
  [5, 5/2, 1, 1/2, 1/5, 1/10, 1/20].getD i 0

/-- An all-zero measurements block, used in concrete fixtures. -/
def zeroMeasurements : Measurements :=
  ⟨0, 0, 0, 0, 0, 0, 0, 0, 0, 0, 0, 0, 0⟩

/-- The end-to-end fixture of the spec: `time_scale_index = 5`,
`channel1_scale_index = 2` (and the same for channel 2), offsets 512, and
channel 1 samples `[512, 1024]`. -/
def exampleFile : File :=
  { header :=
      { channel1_scale := 2, channel1_coupling := 0, channel1_probe := 0,
        channel2_scale := 2, channel2_coupling := 0, channel2_probe := 0,
        time_scale := 5, scroll_speed := 0, trigger_type := 0,
        trigger_edge := 0, trigger_channel := 0, channel1_offset := 512,
        channel2_offset := 512, screen_brightness := 0, grid_brightness := 0,
        trigger_50 := 0, channel1_measurements := zeroMeasurements,
        channel2_measurements := zeroMeasurements },
    channel11 := [512, 1024], channel21 := [0], channel12 := [],
    channel22 := [] }

/-- A placeholder record used only as the default of `Option.getD`. -/
def junkData : Data :=
  { trigger := ⟨.Auto, .Rising, .Channel1, .On⟩,
    time_scale := ⟨1, 0, Second.mk⟩,
    channel1 := ⟨⟨1, 0, Volt.mk⟩, .DC, .OneX, processed_measurements_of zeroMeasurements, []⟩,
    channel2 := ⟨⟨1, 0, Volt.mk⟩, .DC, .OneX, processed_measurements_of zeroMeasurements, []⟩ }

/-- The parsed record of the fixture. -/
def exampleData : Data := (parsed_data exampleFile).getD junkData

/-- A 10000-byte all-zero capture buffer. -/
def zeroBuf : List ℕ := List.replicate 10000 0

/-- The decode of the all-zero buffer: an all-zero header and all-zero
sample runs. -/
def zeroFile : File :=
  { header :=
      { channel1_scale := 0, channel1_coupling := 0, channel1_probe := 0,
        channel2_scale := 0, channel2_coupling := 0, channel2_probe := 0,
        time_scale := 0, scroll_speed := 0, trigger_type := 0,
        trigger_edge := 0, trigger_channel := 0, channel1_offset := 0,
        channel2_offset := 0, screen_brightness := 0, grid_brightness := 0,
        trigger_50 := 0, channel1_measurements := zeroMeasurements,
        channel2_measurements := zeroMeasurements },
    channel11 := List.replicate 1500 0, channel21 := List.replicate 1500 0,
    channel12 := List.replicate 750 0, channel22 := List.replicate 750 0 }

lemma exceptToOption_eq_some {ε α : Type} (e : Except ε α) (a : α) :
    e.toOption = some a ↔ e = .ok a := by
  cases e <;> simp [Except.toOption]

lemma bind_eq_some_iff {α β : Type} (x : Option α) (f : α → Option β) (b : β) :
    x >>= f = some b ↔ ∃ a, x = some a ∧ f a = some b := by
  cases x <;> simp

lemma someBind {α β : Type} (a : α) (f : α → Option β) :
    (some a : Option α) >>= f = f a := rfl

lemma generate_points_length (S : List ℕ) (vs : Scale Volt) (ts : Scale Second)
    (o : ℕ) : (generate_points S vs ts o).length = S.length := by
  simp [generate_points]

lemma generate_points_getElem? (S : List ℕ) (vs : Scale Volt) (ts : Scale Second)
    (o : ℕ) (i : ℕ) :
    (generate_points S vs ts o)[i]? = S[i]?.map fun v =>
      { time := (i : ℚ) * ts.get_scale / 50,
        voltage := ((v : ℚ) - (o : ℚ)) * vs.get_scale / 50 } := by
  simp only [generate_points, List.getElem?_map, List.getElem?_enum, Option.map_map]
  cases S[i]? <;> simp [DIVISION_POINTS]

lemma time_scales_pos : ∀ s ∈ TIME_SCALES, 0 < s.get_scale := by
  intro s hs
  fin_cases hs <;> norm_num [Scale.get_scale]

lemma probe_scales_pos : ∀ s ∈ PROBE_SCALES, 0 < s.get_scale := by
  intro s hs
  fin_cases hs <;> norm_num [Scale.get_scale]

lemma readRun_spec : ∀ (n : ℕ) (rest : List ℕ) (vs : List ℕ × List ℕ),
    readRun rest n = some vs →
    vs.1.length = n ∧ vs.2 = rest.drop (2 * n) ∧
    ∀ i, i < n → ∃ b0 b1, rest[2 * i]? = some b0 ∧
      rest[2 * i + 1]? = some b1 ∧ vs.1[i]? = some (b0 + 256 * b1) := by
  intro n
  induction n with
  | zero =>
    intro rest vs h
    simp only [readRun] at h
    cases h
    exact ⟨rfl, rfl, by omega⟩
  | succ n ih =>
    intro rest vs h
    match rest with
    | [] => simp [readRun] at h
    | [b0] => simp [readRun] at h
    | b0 :: b1 :: r =>
      simp only [readRun, Option.map_eq_some'] at h
      obtain ⟨p, hp, rfl⟩ := h
      obtain ⟨hlen, hrest, hget⟩ := ih r p hp
      refine ⟨by simp [hlen], ?_, ?_⟩
      · have : 2 * (n + 1) = 2 * n + 1 + 1 := by omega
        rw [this]
        simpa using hrest
      · intro i hi
        match i with
        | 0 => exact ⟨b0, b1, by simp, by simp, by simp⟩
        | i + 1 =>
          obtain ⟨c0, c1, h0, h1, hv⟩ := hget i (by omega)
          refine ⟨c0, c1, ?_, ?_, ?_⟩
          · have : 2 * (i + 1) = 2 * i + 1 + 1 := by omega
            rw [this]
            simpa using h0
          · have : 2 * (i + 1) + 1 = 2 * i + 1 + 1 + 1 := by omega
            rw [this]
            simpa using h1
          · simpa using hv

lemma readRun_replicate_zero : ∀ n m : ℕ, 2 * n ≤ m →
    readRun (List.replicate m 0) n =
      some (List.replicate n 0, List.replicate (m - 2 * n) 0) := by
  intro n
  induction n with
  | zero =>
    intro m _
    simp [readRun]
  | succ n ih =>
    intro m hm
    match m, hm with
    | m + 2, hm =>
      rw [List.replicate_succ, List.replicate_succ]
      rw [show readRun (0 :: 0 :: List.replicate m 0) (n + 1) =
        (readRun (List.replicate m 0) n).map
          (fun p => ((0 + 256 * 0) :: p.1, p.2)) from rfl]
      rw [ih m (by omega)]
      simp only [Option.map_some']
      have h1 : (0 : ℕ) + 256 * 0 = 0 := by norm_num
      have h2 : m + 2 - 2 * (n + 1) = m - 2 * n := by omega
      rw [h1, h2, ← List.replicate_succ]

set_option maxRecDepth 8000 in
lemma decodeFile_zeroBuf : decodeFile zeroBuf = some zeroFile := by
  have hread : ∀ pos : ℕ, pos + 1 < 10000 → readU16le zeroBuf pos = some 0 := by
    intro pos hpos
    unfold readU16le zeroBuf
    rw [List.getElem?_replicate, List.getElem?_replicate,
      if_pos (by omega : pos < 10000), if_pos (by omega : pos + 1 < 10000)]
    rfl
  have hm : ∀ pos : ℕ, pos + 47 < 10000 →
      decodeMeasurements zeroBuf pos = some (zeroMeasurements, pos + 48) := by
    intro pos hpos
    have r2 := hread (pos + 2) (by omega)
    have r6 := hread (pos + 6) (by omega)
    have r10 := hread (pos + 10) (by omega)
    have r14 := hread (pos + 14) (by omega)
    have r18 := hread (pos + 18) (by omega)
    have r22 := hread (pos + 22) (by omega)
    have r24 := hread (pos + 24) (by omega)
    have r26 := hread (pos + 26) (by omega)
    have r30 := hread (pos + 30) (by omega)
    have r34 := hread (pos + 34) (by omega)
    have r38 := hread (pos + 38) (by omega)
    have r42 := hread (pos + 42) (by omega)
    have r46 := hread (pos + 46) (by omega)
    simp only [decodeMeasurements, decodeAmplitudes, decodeFrequencyCycle,
      decodeDuty, r2, r6, r10, r14, r18, r22, r24, r26, r30, r34, r38, r42,
      r46, someBind]
    rfl
  have h4 := hread 4 (by omega)
  have h8 := hread 8 (by omega)
  have h10 := hread 10 (by omega)
  have h14 := hread 14 (by omega)
  have h18 := hread 18 (by omega)
  have h20 := hread 20 (by omega)
  have h22 := hread 22 (by omega)
  have h24 := hread 24 (by omega)
  have h26 := hread 26 (by omega)
  have h28 := hread 28 (by omega)
  have h30 := hread 30 (by omega)
  have h84 := hread 84 (by omega)
  have h86 := hread 86 (by omega)
  have h120 := hread 120 (by omega)
  have h122 := hread 122 (by omega)
  have h124 := hread 124 (by omega)
  have hm1 := hm 208 (by omega)
  have hm2 := hm 256 (by omega)
  have hh : decodeHeader zeroBuf = some zeroFile.header := by
    simp only [decodeHeader, decodeChannelConfig, decodeTriggerConfig,
      decodeOffsetsDisplay, h4, h8, h10, h14, h18, h20, h22, h24, h26, h28,
      h30, h84, h86, h120, h122, h124, hm1, hm2, someBind]
    rfl
  have hdrop : zeroBuf.drop 1000 = List.replicate 9000 0 := by
    rw [zeroBuf, List.drop_replicate]
  have hr1 : readRun (List.replicate 9000 0) 1500 =
      some (List.replicate 1500 0, List.replicate 6000 0) := by
    have h := readRun_replicate_zero 1500 9000 (by omega)
    norm_num at h
    exact h
  have hr2 : readRun (List.replicate 6000 0) 1500 =
      some (List.replicate 1500 0, List.replicate 3000 0) := by
    have h := readRun_replicate_zero 1500 6000 (by omega)
    norm_num at h
    exact h
  have hr3 : readRun (List.replicate 3000 0) 750 =
      some (List.replicate 750 0, List.replicate 1500 0) := by
    have h := readRun_replicate_zero 750 3000 (by omega)
    norm_num at h
    exact h
  have hr4 : readRun (List.replicate 1500 0) 750 =
      some (List.replicate 750 0, List.replicate 0 0) := by
    have h := readRun_replicate_zero 750 1500 (by omega)
    norm_num at h
    exact h
  simp only [decodeFile, hh, hdrop, hr1, hr2, hr3, hr4, someBind, zeroFile,
    Option.pure_def]

/-- C1: for every sample array `S`, resolved voltage scale `Vs`, resolved time
scale `Ts` and zero offset `O`, `generate_points` produces one point per
sample index, in index order, with
`time i = i * Ts.value * 10 ^ Ts.scale / 50` and
`voltage i = (S i - O) * Vs.value * 10 ^ Vs.scale / 50`; channel attenuation
is not an input of the computation, so it cannot appear in the formula. -/
theorem C1_generate_points_formula :
    ∀ (S : List ℕ) (Vs : Scale Volt) (Ts : Scale Second) (O : ℕ),
      (generate_points S Vs Ts O).length = S.length ∧
      ∀ i, (h : i < S.length) →
        (generate_points S Vs Ts O)[i]? =
          some { time := (i : ℚ) * (Ts.value * (10 : ℚ) ^ Ts.scale) / 50,
                 voltage := ((S.get ⟨i, h⟩ : ℚ) - (O : ℚ)) *
                   (Vs.value * (10 : ℚ) ^ Vs.scale) / 50 } := by
  intro S Vs Ts O
  refine ⟨generate_points_length S Vs Ts O, ?_⟩
  intro i h
  rw [generate_points_getElem?, List.getElem?_eq_getElem h]
  simp [Scale.get_scale, List.get_eq_getElem]

/-- Witness for C1 at the fixture input `[512, 1024]`, unit scales,
offset 512. -/
theorem C1_generate_points_formula_witness :
    (generate_points [512, 1024] ⟨1, 0, Volt.mk⟩ ⟨1, 0, Second.mk⟩ 512).length = 2 ∧
    (generate_points [512, 1024] ⟨1, 0, Volt.mk⟩ ⟨1, 0, Second.mk⟩ 512)[1]? =
      some { time := 1/50, voltage := 256/25 } := by
  have h := C1_generate_points_formula [512, 1024] ⟨1, 0, Volt.mk⟩ ⟨1, 0, Second.mk⟩ 512
  refine ⟨by simpa using h.1, ?_⟩
  rw [h.2 1 (by norm_num)]
  norm_num

/-- C3 counterexample: the time-per-division table has 33 entries, not 32
(a full 1/2/5 progression from 50 s down to 1 ns takes 33 entries). -/
theorem C3_counterexample : ¬ TIME_SCALES.length = 32 := by
  simp [TIME_SCALES]

/-- C3 (amended): the time-per-division table has exactly 33 entries in a
1/2/5 progression across decades from 50 s down to 1 ns, the
voltage-per-division table has exactly 7 entries from 5 V down to 50 mV, and
every entry's coefficient equals the closed-form value at its index. -/
theorem C3_tables_content :
    TIME_SCALES.length = 33 ∧ PROBE_SCALES.length = 7 ∧
    (∀ i, (h : i < TIME_SCALES.length) →
      (TIME_SCALES.get ⟨i, h⟩).get_scale = timeCoefficient i) ∧
    (∀ i, (h : i < PROBE_SCALES.length) →
      (PROBE_SCALES.get ⟨i, h⟩).get_scale = voltageCoefficient i) := by
  refine ⟨by simp [TIME_SCALES], by simp [PROBE_SCALES], ?_, ?_⟩
  · intro i h
    simp only [TIME_SCALES, List.length_cons, List.length_nil] at h
    norm_num at h
    interval_cases i <;>
      norm_num [TIME_SCALES, Scale.get_scale, timeCoefficient]
  · intro i h
    simp only [PROBE_SCALES, List.length_cons, List.length_nil] at h
    norm_num at h
    interval_cases i <;>
      norm_num [PROBE_SCALES, Scale.get_scale, voltageCoefficient]

/-- Witness for the amended C3 at indices 6 (500 ms) and 1 (2.5 V). -/
theorem C3_tables_content_witness :
    (TIME_SCALES.get ⟨6, by simp [TIME_SCALES]⟩).get_scale = timeCoefficient 6 ∧
    (PROBE_SCALES.get ⟨1, by simp [PROBE_SCALES]⟩).get_scale = voltageCoefficient 1 :=
  ⟨C3_tables_content.2.2.1 6 _, C3_tables_content.2.2.2 1 _⟩

/-- C4: resolving a scale table at index `i` returns the i-th entry when
`i` is below the table length and fails with an index-carrying error (never
a default) otherwise, for both the voltage and the time table. -/
theorem C4_scale_resolution :
    ∀ i : ℕ,
      (∀ h : i < PROBE_SCALES.length,
        try_from_primitive_volt i = .ok (PROBE_SCALES.get ⟨i, h⟩)) ∧
      (PROBE_SCALES.length ≤ i → try_from_primitive_volt i = .error ⟨i⟩) ∧
      (∀ h : i < TIME_SCALES.length,
        try_from_primitive_second i = .ok (TIME_SCALES.get ⟨i, h⟩)) ∧
      (TIME_SCALES.length ≤ i → try_from_primitive_second i = .error ⟨i⟩) := by
  intro i
  refine ⟨?_, ?_, ?_, ?_⟩
  · intro h
    unfold try_from_primitive_volt
    rw [List.getElem?_eq_getElem h]
    simp [List.get_eq_getElem]
  · intro h
    unfold try_from_primitive_volt
    rw [List.getElem?_eq_none h]
  · intro h
    unfold try_from_primitive_second
    rw [List.getElem?_eq_getElem h]
    simp [List.get_eq_getElem]
  · intro h
    unfold try_from_primitive_second
    rw [List.getElem?_eq_none h]

/-- Witness for C4 at in-range indices 2 and 5 and out-of-range indices 7
and 33. -/
theorem C4_scale_resolution_witness :
    try_from_primitive_volt 2 = .ok (PROBE_SCALES.get ⟨2, by simp [PROBE_SCALES]⟩) ∧
    try_from_primitive_volt 7 = .error ⟨7⟩ ∧
    try_from_primitive_second 5 = .ok (TIME_SCALES.get ⟨5, by simp [TIME_SCALES]⟩) ∧
    try_from_primitive_second 33 = .error ⟨33⟩ :=
  ⟨(C4_scale_resolution 2).1 _,
   (C4_scale_resolution 7).2.1 (by simp [PROBE_SCALES]),
   (C4_scale_resolution 5).2.2.1 _,
   (C4_scale_resolution 33).2.2.2 (by simp [TIME_SCALES])⟩

/-- C5: each closed enum decodes every code below its variant count to the
variant at that position in declaration order and fails with an error
carrying the raw code (never a default variant) for every larger code. -/
theorem C5_enum_codes :
    Coupling.try_from_primitive 0 = .ok .DC ∧
    Coupling.try_from_primitive 1 = .ok .AC ∧
    (∀ n, 2 ≤ n → Coupling.try_from_primitive n = .error ⟨n⟩) ∧
    Attenuation.try_from_primitive 0 = .ok .OneX ∧
    Attenuation.try_from_primitive 1 = .ok .TenX ∧
    Attenuation.try_from_primitive 2 = .ok .OneHundredX ∧
    (∀ n, 3 ≤ n → Attenuation.try_from_primitive n = .error ⟨n⟩) ∧
    ScrollSpeed.try_from_primitive 0 = .ok .Fast ∧
    ScrollSpeed.try_from_primitive 1 = .ok .Slow ∧
    (∀ n, 2 ≤ n → ScrollSpeed.try_from_primitive n = .error ⟨n⟩) ∧
    TriggerType.try_from_primitive 0 = .ok .Auto ∧
    TriggerType.try_from_primitive 1 = .ok .Single ∧
    TriggerType.try_from_primitive 2 = .ok .Normal ∧
    (∀ n, 3 ≤ n → TriggerType.try_from_primitive n = .error ⟨n⟩) ∧
    TriggerEdge.try_from_primitive 0 = .ok .Rising ∧
    TriggerEdge.try_from_primitive 1 = .ok .Falling ∧
    (∀ n, 2 ≤ n → TriggerEdge.try_from_primitive n = .error ⟨n⟩) ∧
    TriggerChannel.try_from_primitive 0 = .ok .Channel1 ∧
    TriggerChannel.try_from_primitive 1 = .ok .Channel2 ∧
    (∀ n, 2 ≤ n → TriggerChannel.try_from_primitive n = .error ⟨n⟩) ∧
    Trigger50.try_from_primitive 0 = .ok .On ∧
    Trigger50.try_from_primitive 1 = .ok .Off ∧
    (∀ n, 2 ≤ n → Trigger50.try_from_primitive n = .error ⟨n⟩) := by
  refine ⟨rfl, rfl, ?_, rfl, rfl, rfl, ?_, rfl, rfl, ?_, rfl, rfl, rfl, ?_,
    rfl, rfl, ?_, rfl, rfl, ?_, rfl, rfl, ?_⟩ <;> intro n hn
  · obtain ⟨m, rfl⟩ : ∃ m, n = m + 2 := ⟨n - 2, by omega⟩
    rfl
  · obtain ⟨m, rfl⟩ : ∃ m, n = m + 3 := ⟨n - 3, by omega⟩
    rfl
  · obtain ⟨m, rfl⟩ : ∃ m, n = m + 2 := ⟨n - 2, by omega⟩
    rfl
  · obtain ⟨m, rfl⟩ : ∃ m, n = m + 3 := ⟨n - 3, by omega⟩
    rfl
  · obtain ⟨m, rfl⟩ : ∃ m, n = m + 2 := ⟨n - 2, by omega⟩
    rfl
  · obtain ⟨m, rfl⟩ : ∃ m, n = m + 2 := ⟨n - 2, by omega⟩
    rfl
  · obtain ⟨m, rfl⟩ : ∃ m, n = m + 2 := ⟨n - 2, by omega⟩
    rfl

/-- Witness for C5's out-of-range cases at concrete codes. -/
theorem C5_enum_codes_witness :
    Coupling.try_from_primitive 7 = .error ⟨7⟩ ∧
    Attenuation.try_from_primitive 3 = .error ⟨3⟩ ∧
    Trigger50.try_from_primitive 9 = .error ⟨9⟩ := by
  obtain ⟨-, -, hCo, -, -, -, hAt, -, -, -, -, -, -, -, -, -, -, -, -, -, -,
    -, hT5⟩ := C5_enum_codes
  exact ⟨hCo 7 (by omega), hAt 3 (by omega), hT5 9 (by omega)⟩

/-- C6: the end-to-end fixture: time scale index 5 resolves to 1 s/div,
voltage scale index 2 resolves to 1 V/div, and samples `[512, 1024]` with
offset 512 produce exactly the points (0, 0) and (0.02, 10.24). -/
theorem C6_fixture_points :
    try_from_primitive_second 5 = .ok ⟨1, 0, Second.mk⟩ ∧
    (⟨1, 0, Second.mk⟩ : Scale Second).get_scale = 1 ∧
    try_from_primitive_volt 2 = .ok ⟨1, 0, Volt.mk⟩ ∧
    (⟨1, 0, Volt.mk⟩ : Scale Volt).get_scale = 1 ∧
    generate_points [512, 1024] ⟨1, 0, Volt.mk⟩ ⟨1, 0, Second.mk⟩ 512 =
      [{ time := 0, voltage := 0 }, { time := 1/50, voltage := 256/25 }] := by
  refine ⟨by norm_num [try_from_primitive_second, TIME_SCALES],
    by norm_num [Scale.get_scale],
    by norm_num [try_from_primitive_volt, PROBE_SCALES],
    by norm_num [Scale.get_scale], ?_⟩
  norm_num [generate_points, List.enum, List.enumFrom, Scale.get_scale,
    DIVISION_POINTS]

/-- C7: composing a split-encoded frequency from 16-bit halves equals
`high * 2^16 + low`, never wraps the 32-bit accumulator, and yields 65538
on the documented example. -/
theorem C7_parse_frequency_composition :
    (∀ high low : ℕ, high < 65536 → low < 65536 →
      parse_frequency high low = high * 65536 + low ∧
      high * 65536 + low < 4294967296) ∧
    parse_frequency 1 2 = 65538 := by
  have h16 : ∀ a : ℕ, a <<< 16 = a * 65536 := by
    intro a
    rw [Nat.shiftLeft_eq]
  constructor
  · intro high low hh hl
    unfold parse_frequency
    rw [h16]
    refine ⟨?_, ?_⟩ <;> omega
  · unfold parse_frequency
    rw [h16]

/-- Witness for C7 at the documented input pair. -/
theorem C7_parse_frequency_composition_witness :
    parse_frequency 1 2 = 1 * 65536 + 2 ∧ 1 * 65536 + 2 < 4294967296 :=
  C7_parse_frequency_composition.1 1 2 (by omega) (by omega)

/-- C10: normalization divides each raw amplitude statistic by 1024 and
passes the duration and duty statistics through unchanged. -/
theorem C10_measurement_normalization :
    ∀ m : Measurements,
      (processed_measurements_of m).vmax = (m.vmax : ℚ) / 1024 ∧
      (processed_measurements_of m).vmin = (m.vmin : ℚ) / 1024 ∧
      (processed_measurements_of m).vavg = (m.vavg : ℚ) / 1024 ∧
      (processed_measurements_of m).vrms = (m.vrms : ℚ) / 1024 ∧
      (processed_measurements_of m).vpp = (m.vpp : ℚ) / 1024 ∧
      (processed_measurements_of m).vp = (m.vp : ℚ) / 1024 ∧
      (processed_measurements_of m).cycle_ns = m.cycle_ns ∧
      (processed_measurements_of m).time_plus_ns = m.time_plus_ns ∧
      (processed_measurements_of m).time_minus_ns = m.time_minus_ns ∧
      (processed_measurements_of m).duty_plus_percentage = m.duty_plus_percentage ∧
      (processed_measurements_of m).duty_minus_percentage = m.duty_minus_percentage := by
  intro m
  exact ⟨rfl, rfl, rfl, rfl, rfl, rfl, rfl, rfl, rfl, rfl, rfl⟩

/-- C2: in parsed mode the point series of channel 2 is generated from
channel 1's sample buffer (`channel11`), with channel 2's resolved scale and
channel 2's offset. -/
theorem C2_channel2_points_use_channel1_samples :
    ∀ (f : File) (d : Data) (vs2 : Scale Volt) (ts : Scale Second),
      parsed_data f = some d →
      try_from_primitive_volt f.header.channel2_scale = .ok vs2 →
      try_from_primitive_second f.header.time_scale = .ok ts →
      d.channel2.points =
        generate_points f.channel11 vs2 ts f.header.channel2_offset := by
  intro f d vs2 ts h h2 ht
  simp only [parsed_data, bind_eq_some_iff, Option.pure_def,
    Option.some.injEq] at h
  obtain ⟨ts1, hts1, s1, hs1, s2, hs2, tt, htt, te, hte, tc, htc, t50, h50x,
    c1, hc1, a1, ha1, c2, hc2, a2, ha2, hd⟩ := h
  rw [exceptToOption_eq_some] at hts1 hs2
  rw [ht] at hts1
  rw [h2] at hs2
  injection hts1 with hts1
  injection hs2 with hs2
  subst hts1
  subst hs2
  subst hd
  rfl

/-- Witness for C2 at the fixture file. -/
theorem C2_channel2_points_use_channel1_samples_witness :
    exampleData.channel2.points =
      generate_points exampleFile.channel11 ⟨1, 0, Volt.mk⟩ ⟨1, 0, Second.mk⟩ 512 :=
  C2_channel2_points_use_channel1_samples exampleFile exampleData
    ⟨1, 0, Volt.mk⟩ ⟨1, 0, Second.mk⟩ rfl rfl rfl

/-- C9: `generate_points` is a pure function (identical inputs give identical
output); every output's time starts at 0 and, for a time scale drawn from the
table, is non-decreasing along the series; the voltage is an affine function
of the raw sample with slope `get_scale / 50` and, for a voltage scale drawn
from the table, is zero exactly when the sample equals the offset. -/
theorem C9_points_deterministic_monotone_affine :
    ∀ (S : List ℕ) (vs : Scale Volt) (ts : Scale Second) (o : ℕ),
      (∀ (S2 : List ℕ) (vs2 : Scale Volt) (ts2 : Scale Second) (o2 : ℕ),
        S = S2 → vs = vs2 → ts = ts2 → o = o2 →
        generate_points S vs ts o = generate_points S2 vs2 ts2 o2) ∧
      (∀ p : Point, (generate_points S vs ts o)[0]? = some p → p.time = 0) ∧
      (ts ∈ TIME_SCALES →
        ∀ (i j : ℕ) (p q : Point), i ≤ j →
          (generate_points S vs ts o)[i]? = some p →
          (generate_points S vs ts o)[j]? = some q →
          p.time ≤ q.time) ∧
      (vs ∈ PROBE_SCALES →
        ∀ (i : ℕ) (p : Point), (generate_points S vs ts o)[i]? = some p →
          ∀ h : i < S.length,
            p.voltage = (S.get ⟨i, h⟩ : ℚ) * (vs.get_scale / 50) -
              (o : ℚ) * (vs.get_scale / 50) ∧
            (p.voltage = 0 ↔ S.get ⟨i, h⟩ = o)) := by
  intro S vs ts o
  refine ⟨?_, ?_, ?_, ?_⟩
  · rintro S2 vs2 ts2 o2 rfl rfl rfl rfl
    rfl
  · intro p hp
    rw [generate_points_getElem?] at hp
    rcases hS : S[0]? with _ | v <;> rw [hS] at hp
    · simp at hp
    · simp only [Option.map_some', Option.some.injEq] at hp
      subst hp
      simp
  · intro hts i j p q hij hi hj
    rw [generate_points_getElem?] at hi hj
    rcases hSi : S[i]? with _ | v <;> rw [hSi] at hi
    · simp at hi
    rcases hSj : S[j]? with _ | w <;> rw [hSj] at hj
    · simp at hj
    simp only [Option.map_some', Option.some.injEq] at hi hj
    subst hi
    subst hj
    have hpos : 0 < ts.get_scale := time_scales_pos ts hts
    have hcast : (i : ℚ) ≤ (j : ℚ) := Nat.cast_le.mpr hij
    show (i : ℚ) * ts.get_scale / 50 ≤ (j : ℚ) * ts.get_scale / 50
    rw [div_le_div_iff_of_pos_right (by norm_num : (0:ℚ) < 50)]
    exact mul_le_mul_of_nonneg_right hcast hpos.le
  · intro hvs i p hp h
    rw [generate_points_getElem?] at hp
    rw [List.getElem?_eq_getElem h] at hp
    simp only [Option.map_some', Option.some.injEq] at hp
    subst hp
    have hg : vs.get_scale ≠ 0 := ne_of_gt (probe_scales_pos vs hvs)
    constructor
    · simp only [List.get_eq_getElem]
      ring
    · simp only [List.get_eq_getElem]
      rw [div_eq_zero_iff, mul_eq_zero]
      constructor
      · rintro ((h0 | h0) | h0)
        · have : ((S[i] : ℕ) : ℚ) = (o : ℚ) := by linarith [sub_eq_zero.mp h0]
          exact_mod_cast this
        · exact absurd h0 hg
        · norm_num at h0
      · intro h0
        left
        left
        rw [h0]
        ring

/-- Witness for C9 on the samples `[3, 4]` with the 5 V and 50 s table
scales and offset 3. -/
theorem C9_points_deterministic_monotone_affine_witness :
    (({ time := 0, voltage := 0 } : Point).time ≤
      ({ time := 1, voltage := 1/10 } : Point).time) ∧
    (({ time := 0, voltage := 0 } : Point).voltage = 0 ↔
      ([3, 4] : List ℕ).get ⟨0, by norm_num⟩ = 3) := by
  have h := C9_points_deterministic_monotone_affine [3, 4] ⟨5, 0, Volt.mk⟩
    ⟨50, 0, Second.mk⟩ 3
  constructor
  · exact h.2.2.1 (List.mem_cons_self _ _) 0 1 _ _ (by omega)
      (by norm_num [generate_points, List.enum, List.enumFrom, Scale.get_scale,
        DIVISION_POINTS])
      (by norm_num [generate_points, List.enum, List.enumFrom, Scale.get_scale,
        DIVISION_POINTS])
  · exact (h.2.2.2 (List.mem_cons_self _ _) 0 _
      (by norm_num [generate_points, List.enum, List.enumFrom, Scale.get_scale,
        DIVISION_POINTS])
      (by norm_num)).2

/-- C8: a successful decode reads the two per-channel measurement blocks at
absolute byte offsets 208 and 256, and the sample data as four fixed-length
little-endian `u16` runs of 1500, 1500, 750 and 750 values laid out
contiguously from absolute byte offset 1000 (so only the first run needs its
own seek: the others follow at 4000, 7000 and 8500). -/
theorem C8_decoder_layout :
    ∀ (buf : List ℕ) (f : File), decodeFile buf = some f →
      (∃ mp, decodeMeasurements buf 208 = some mp ∧
        f.header.channel1_measurements = mp.1) ∧
      (∃ mp, decodeMeasurements buf 256 = some mp ∧
        f.header.channel2_measurements = mp.1) ∧
      f.channel11.length = 1500 ∧ f.channel21.length = 1500 ∧
      f.channel12.length = 750 ∧ f.channel22.length = 750 ∧
      (∀ i, i < 1500 → ∃ b0 b1, buf[1000 + 2 * i]? = some b0 ∧
        buf[1000 + 2 * i + 1]? = some b1 ∧ f.channel11[i]? = some (b0 + 256 * b1)) ∧
      (∀ i, i < 1500 → ∃ b0 b1, buf[4000 + 2 * i]? = some b0 ∧
        buf[4000 + 2 * i + 1]? = some b1 ∧ f.channel21[i]? = some (b0 + 256 * b1)) ∧
      (∀ i, i < 750 → ∃ b0 b1, buf[7000 + 2 * i]? = some b0 ∧
        buf[7000 + 2 * i + 1]? = some b1 ∧ f.channel12[i]? = some (b0 + 256 * b1)) ∧
      (∀ i, i < 750 → ∃ b0 b1, buf[8500 + 2 * i]? = some b0 ∧
        buf[8500 + 2 * i + 1]? = some b1 ∧ f.channel22[i]? = some (b0 + 256 * b1)) := by
  intro buf f h
  simp only [decodeFile, bind_eq_some_iff, Option.pure_def, Option.some.injEq] at h
  obtain ⟨hdr, hhdr, c11, h11, c21, h21, c12, h12, c22, h22, hf⟩ := h
  simp only [decodeHeader, bind_eq_some_iff, Option.pure_def,
    Option.some.injEq] at hhdr
  obtain ⟨cc, hcc, tc, htc, oc, hoc, m1, hm1, m2, hm2, hh⟩ := hhdr
  obtain ⟨len11, rest11, get11⟩ := readRun_spec 1500 (buf.drop 1000) c11 h11
  rw [rest11] at h21
  rw [List.drop_drop] at h21
  norm_num at h21
  obtain ⟨len21, rest21, get21⟩ := readRun_spec 1500 (buf.drop 4000) c21 h21
  rw [rest21] at h12
  rw [List.drop_drop] at h12
  norm_num at h12
  obtain ⟨len12, rest12, get12⟩ := readRun_spec 750 (buf.drop 7000) c12 h12
  rw [rest12] at h22
  rw [List.drop_drop] at h22
  norm_num at h22
  obtain ⟨len22, rest22, get22⟩ := readRun_spec 750 (buf.drop 8500) c22 h22
  subst hf
  subst hh
  refine ⟨⟨m1, hm1, rfl⟩, ⟨m2, hm2, rfl⟩, len11, len21, len12, len22,
    ?_, ?_, ?_, ?_⟩
  · intro i hi
    obtain ⟨b0, b1, h0, h1, hv⟩ := get11 i hi
    rw [List.getElem?_drop] at h0 h1
    exact ⟨b0, b1, h0, h1, hv⟩
  · intro i hi
    obtain ⟨b0, b1, h0, h1, hv⟩ := get21 i hi
    rw [List.getElem?_drop] at h0 h1
    exact ⟨b0, b1, h0, h1, hv⟩
  · intro i hi
    obtain ⟨b0, b1, h0, h1, hv⟩ := get12 i hi
    rw [List.getElem?_drop] at h0 h1
    exact ⟨b0, b1, h0, h1, hv⟩
  · intro i hi
    obtain ⟨b0, b1, h0, h1, hv⟩ := get22 i hi
    rw [List.getElem?_drop] at h0 h1
    exact ⟨b0, b1, h0, h1, hv⟩

/-- Witness for C8 on the all-zero 10000-byte buffer. -/
theorem C8_decoder_layout_witness :
    zeroFile.channel11.length = 1500 ∧
    (∃ b0 b1, zeroBuf[1000 + 2 * 0]? = some b0 ∧
      zeroBuf[1000 + 2 * 0 + 1]? = some b1 ∧
      zeroFile.channel11[0]? = some (b0 + 256 * b1)) := by
  have h := C8_decoder_layout zeroBuf zeroFile decodeFile_zeroBuf
  exact ⟨h.2.2.1, h.2.2.2.2.2.2.1 0 (by omega)⟩

end Fnirsi
